import Mathlib

/-!
Shallow embedding of the agent uptime cron job of the xmtp-agent-directory
repository (`src/app/api/cron/ping-agents/route.ts`), together with theorems
checking the specification's claims about it.

All network and clock behaviour is abstracted as a functional oracle
(`NetOracle`): each XMTP SDK call site of the route is a field of the oracle,
returning `Except Unit _` where the call can throw (`Except.error ()` stands
for a thrown exception at that call site).  The run itself (`GET`) is then a
pure function of the ambient configuration (`RunEnv`) and the loaded
registry, mirroring the route line by line.
-/

namespace AgentDirectory

/-- `AgentStatus` from `app/types/agent.ts`. -/
inductive Status where
  | online
  | offline
  | unknown
deriving DecidableEq, Repr

/-- The `Agent` record from `app/types/agent.ts`.  Optional descriptive
fields are `Option String`; `status` and `lastChecked` are the two fields
the cron job rewrites. -/
structure Agent where
  agentName : String
  agentAddress : String
  agentENS : Option String := none
  agentCreator : String
  agentWebsite : Option String := none
  agentCategories : List String := []
  agentX : Option String := none
  agentFC : Option String := none
  profileImage : Option String := none
  status : Status
  lastChecked : String
deriving DecidableEq, Repr

/-- route.ts line 15: the literal probe payload. -/
def PING_MESSAGE : String := "ping"

/-- route.ts line 16: 60 seconds to wait for a response. -/
def PING_TIMEOUT_MS : Nat := 60000

/-- route.ts line 274: the fixed interval of the poll loop in
`waitForResponse`. -/
def POLL_INTERVAL_MS : Nat := 5000

/-- A message as seen by `waitForResponse`: only the sender inbox id is
inspected (route.ts line 260). -/
structure Msg where
  senderInboxId : String
deriving DecidableEq, Repr

/-- Functional oracle for every XMTP SDK call the route makes.
`canMessage addr` is `(await Client.canMessage([addr])).get(addr)`, whose
value may be a boolean or `undefined` (`none`).  `sync`,
`getConversationById` and `messages` additionally take the poll time at
which they are invoked, so the network may answer differently at different
polls. -/
structure NetOracle where
  canMessage : String → Except Unit (Option Bool)
  fetchInboxIdByIdentifier : String → Except Unit (Option String)
  createDm : String → Except Unit String
  sendText : String → String → Except Unit Unit
  sync : Nat → Except Unit Unit
  getConversationById : String → Nat → Except Unit (Option Unit)
  messages : String → Nat → Except Unit (List Msg)
  clientInboxId : String

/-- One execution of the inner `checkMessages` closure of `waitForResponse`
(route.ts lines 247-270) at poll time `t`: `true` iff it finds a message
whose sender is not the pinger, hence resolves the wait with `true`.  Any
exception inside the closure is caught there (lines 267-269) and yields
`false` (no resolution at this poll). -/
def checkMessages (o : NetOracle) (convId : String) (t : Nat) : Bool :=
  match o.sync t with
  | Except.error _ => false
  | Except.ok _ =>
    match o.getConversationById convId t with
    | Except.error _ => false
    | Except.ok none => false
    | Except.ok (some _) =>
      match o.messages convId t with
      | Except.error _ => false
      | Except.ok msgs => msgs.any (fun m => decide (m.senderInboxId ≠ o.clientInboxId))

/-- The times at which `checkMessages` runs: immediately (route.ts line 273)
and then every `POLL_INTERVAL_MS` (line 274), strictly before the
`timeoutMs` ceiling, at which the timeout registered first (lines 242-244)
fires and resolves the promise with `false`. -/
def pollTimes (timeoutMs : Nat) : List Nat :=
  (List.range ((timeoutMs + POLL_INTERVAL_MS - 1) / POLL_INTERVAL_MS)).map
    (fun k => POLL_INTERVAL_MS * k)

/-- The value `waitForResponse` resolves with (route.ts lines 236-281):
`true` iff some poll before the ceiling observes a qualifying message. -/
def waitForResponse (o : NetOracle) (convId : String) (timeoutMs : Nat) : Bool :=
  (pollTimes timeoutMs).any (checkMessages o convId)

/-- The first poll time at which a qualifying message is observed, if any. -/
def firstQualifyingPoll (o : NetOracle) (convId : String) (timeoutMs : Nat) : Option Nat :=
  (pollTimes timeoutMs).find? (checkMessages o convId)

/-- The time at which the promise of `waitForResponse` resolves: the first
qualifying poll (resolving `true`, route.ts line 262), or the ceiling
(resolving `false`, line 243). -/
def waitResolveTime (o : NetOracle) (convId : String) (timeoutMs : Nat) : Nat :=
  (firstQualifyingPoll o convId timeoutMs).getD timeoutMs

/-- Whether the `timeout` timer of route.ts line 242 is still pending
strictly after time `t`: it fires at the ceiling, and `clearTimeout` cancels
it at the first qualifying poll (line 261). -/
def timeoutTimerPendingAfter (o : NetOracle) (convId : String) (timeoutMs t : Nat) : Bool :=
  decide (t < timeoutMs) &&
    (match firstQualifyingPoll o convId timeoutMs with
     | none => true
     | some u => decide (t < u))

/-- Whether the recurring poll `interval` of route.ts line 274 is still
pending strictly after time `t`: `clearInterval` is called only by the
cleanup timeout at the ceiling (lines 277-279), never on early
resolution. -/
def intervalPendingAfter (timeoutMs t : Nat) : Bool := decide (t < timeoutMs)

/-- Whether the cleanup timeout of route.ts line 277 is still pending
strictly after time `t`: it always fires at the ceiling and is never
cancelled. -/
def cleanupTimerPendingAfter (timeoutMs t : Nat) : Bool := decide (t < timeoutMs)

/-- The body of the `try` block of `pingAgent` (route.ts lines 191-226);
`Except.error ()` is an exception escaping the block.  `!canMessage` on
line 200 is true when the map lookup is `undefined` or `false`, i.e. when
the value is not `some true`. -/
def pingAgentBody (o : NetOracle) (agentAddress : String) : Except Unit Status :=
  match o.canMessage agentAddress with
  | Except.error e => Except.error e
  | Except.ok cm =>
    if cm ≠ some true then Except.ok Status.offline
    else
      match o.fetchInboxIdByIdentifier agentAddress with
      | Except.error e => Except.error e
      | Except.ok none => Except.ok Status.offline
      | Except.ok (some inboxId) =>
        match o.createDm inboxId with
        | Except.error e => Except.error e
        | Except.ok convId =>
          match o.sendText convId PING_MESSAGE with
          | Except.error e => Except.error e
          | Except.ok _ =>
            Except.ok
              (if waitForResponse o convId PING_TIMEOUT_MS then Status.online
               else Status.unknown)

/-- `pingAgent` (route.ts lines 190-231): the catch at lines 227-230 maps
any exception raised in the body to `unknown`. -/
def pingAgent (o : NetOracle) (agentAddress : String) : Status :=
  match pingAgentBody o agentAddress with
  | Except.error _ => Status.unknown
  | Except.ok s => s

/-- `checkAgentReachability` (route.ts lines 287-299):
`canMessageMap.get(agentAddress) ?? false`, with any exception caught and
mapped to `false`. -/
def checkAgentReachability (o : NetOracle) (agentAddress : String) : Bool :=
  match o.canMessage agentAddress with
  | Except.error _ => false
  | Except.ok cm => cm.getD false

/-- The alert text built by `notifyCreatorAgentDown` (route.ts line 332). -/
def alertMessage (a : Agent) : String :=
  "🔴 Alert: Your agent \"" ++ a.agentName ++ "\" (" ++ a.agentAddress ++
    ") appears to be down and not responding to ping messages. Please investigate."

/-- `notifyCreatorAgentDown` (route.ts lines 304-340).  `Except.ok true`:
the alert was sent; `Except.ok false`: silent skip because the creator is
unreachable (lines 312-315) or has no inbox id (lines 323-326);
`Except.error ()`: an exception, re-thrown to the caller by the catch
(line 338). -/
def notifyCreatorAgentDown (o : NetOracle) (a : Agent) : Except Unit Bool :=
  match o.canMessage a.agentCreator with
  | Except.error e => Except.error e
  | Except.ok cm =>
    if cm ≠ some true then Except.ok false
    else
      match o.fetchInboxIdByIdentifier a.agentCreator with
      | Except.error e => Except.error e
      | Except.ok none => Except.ok false
      | Except.ok (some inboxId) =>
        match o.createDm inboxId with
        | Except.error e => Except.error e
        | Except.ok convId =>
          match o.sendText convId (alertMessage a) with
          | Except.error e => Except.error e
          | Except.ok _ => Except.ok true

/-- Ambient configuration of one run of the `GET` handler (route.ts lines
61-101 and 142-152): the auth header and configured secret, the wallet key,
whether `Client.create` succeeds, the timestamp used for `lastChecked` and
`checkedAt`, whether the registry write succeeds, and the network oracle. -/
structure RunEnv where
  cronSecret : Option String
  authHeader : Option String
  walletKey : Option String
  clientCreateOk : Bool
  now : String
  writeOk : Bool
  net : NetOracle

/-- The auth check of route.ts lines 64-69: reject only when a secret is
configured and the header does not match `Bearer <secret>`. -/
def authorized (env : RunEnv) : Bool :=
  match env.cronSecret with
  | none => true
  | some s => decide (env.authHeader = some ("Bearer " ++ s))

/-- Whether `xmtpClient` is non-null in the loop: a wallet key is set and
`Client.create` did not throw (route.ts lines 84-100). -/
def clientActive (env : RunEnv) : Bool :=
  env.walletKey.isSome && env.clientCreateOk

/-- The status computed for one agent (route.ts lines 104-119): the full
ping test when a client is active, otherwise the reachability-only fallback
mapping reachable to `unknown` and unreachable to `offline` (lines
112-114).  Neither `pingAgent` nor `checkAgentReachability` can throw, so
the catch at lines 116-119 is unreachable here. -/
def computeStatus (env : RunEnv) (a : Agent) : Status :=
  if clientActive env then pingAgent env.net a.agentAddress
  else if checkAgentReachability env.net a.agentAddress then Status.unknown
  else Status.offline

/-- The notification condition of route.ts line 122:
`previousStatus === 'online' && newStatus === 'offline'`. -/
def notifyOwed (previousStatus newStatus : Status) : Bool :=
  decide (previousStatus = Status.online) && decide (newStatus = Status.offline)

/-- The record pushed onto `updatedAgents` (route.ts lines 133-137). -/
def updateAgent (env : RunEnv) (a : Agent) : Agent :=
  { a with status := computeStatus env a, lastChecked := env.now }

/-- Mutable state of the per-agent loop: the accumulating output list and
the set of creators notified this run (route.ts lines 80-81), plus — for
the statements below — the alert messages actually delivered, as pairs of
creator address and message body. -/
structure LoopState where
  updatedAgents : List Agent
  notifiedCreators : List String
  sends : List (String × String)
deriving DecidableEq, Repr

/-- One iteration of the per-agent loop (route.ts lines 103-140): compute
the new status, then — only when the agent went online→offline, a client is
active and the creator was not yet notified — attempt the notification,
adding the creator to the notified set only when the attempt did not throw
(lines 122-131); finally push the updated record. -/
def step (env : RunEnv) (st : LoopState) (a : Agent) : LoopState :=
  let ns :=
    if notifyOwed a.status (computeStatus env a) then
      if clientActive env && !(decide (a.agentCreator ∈ st.notifiedCreators)) then
        match notifyCreatorAgentDown env.net a with
        | Except.error _ => (st.notifiedCreators, st.sends)
        | Except.ok false => (st.notifiedCreators ++ [a.agentCreator], st.sends)
        | Except.ok true =>
          (st.notifiedCreators ++ [a.agentCreator],
            st.sends ++ [(a.agentCreator, alertMessage a)])
      else (st.notifiedCreators, st.sends)
    else (st.notifiedCreators, st.sends)
  { updatedAgents := st.updatedAgents ++ [updateAgent env a],
    notifiedCreators := ns.1,
    sends := ns.2 }

/-- The run summary of route.ts lines 159-165. -/
structure Summary where
  total : Nat
  online : Nat
  offline : Nat
  unknown : Nat
  notified : Nat
deriving DecidableEq, Repr

/-- route.ts lines 159-165: counts over `updatedAgents` plus the size of
the `notifiedCreators` set (the loop only appends a creator it does not
already contain, so list length is set size). -/
def mkSummary (st : LoopState) : Summary :=
  { total := st.updatedAgents.length,
    online := (st.updatedAgents.filter (fun a => decide (a.status = Status.online))).length,
    offline := (st.updatedAgents.filter (fun a => decide (a.status = Status.offline))).length,
    unknown := (st.updatedAgents.filter (fun a => decide (a.status = Status.unknown))).length,
    notified := st.notifiedCreators.length }

/-- The JSON response (route.ts lines 68 and 169-174): HTTP status code
plus the success body fields.  For the 401 response only the status code is
meaningful; the body fields are inert defaults. -/
structure HttpResponse where
  status : Nat
  success : Bool
  checkedAt : String
  summary : Summary
  agents : List Agent
deriving DecidableEq, Repr

/-- Everything observable about one run: the HTTP response, the registry
payload handed to the write at route.ts lines 143-148 (when reached),
whether that write succeeded, and the notification side effects. -/
structure RunResult where
  response : HttpResponse
  writePayload : Option (List Agent)
  persisted : Bool
  notifiedCreators : List String
  sends : List (String × String)
deriving DecidableEq, Repr

/-- The `GET` handler (route.ts lines 61-185): auth check, per-agent loop,
best-effort registry write (its failure is caught at lines 150-152 and does
not affect the response), then the 200 response with summary and updated
records. -/
def GET (env : RunEnv) (agents : List Agent) : RunResult :=
  if authorized env then
    let st := agents.foldl (step env) ⟨[], [], []⟩
    { response :=
        { status := 200, success := true, checkedAt := env.now,
          summary := mkSummary st, agents := st.updatedAgents },
      writePayload := some st.updatedAgents,
      persisted := env.writeOk,
      notifiedCreators := st.notifiedCreators,
      sends := st.sends }
  else
    { response :=
        { status := 401, success := false, checkedAt := "",
          summary := ⟨0, 0, 0, 0, 0⟩, agents := [] },
      writePayload := none,
      persisted := false,
      notifiedCreators := [],
      sends := [] }

end AgentDirectory

namespace AgentDirectory

/-- The loop pushes exactly one updated record per input record. -/
theorem step_updatedAgents (env : RunEnv) (st : LoopState) (a : Agent) :
    (step env st a).updatedAgents = st.updatedAgents ++ [updateAgent env a] := rfl

/-- Folding the loop over the registry appends the per-record updates in
registry order. -/
theorem foldl_updatedAgents (env : RunEnv) (agents : List Agent) :
    ∀ st : LoopState,
      (agents.foldl (step env) st).updatedAgents =
        st.updatedAgents ++ agents.map (updateAgent env) := by
  induction agents with
  | nil => intro st; simp
  | cons a as ih =>
    intro st
    simp only [List.foldl_cons, List.map_cons]
    rw [ih, step_updatedAgents]
    simp

/-- Case analysis on how one loop iteration changes the notification
state: either it leaves the notified set and the sends untouched, or the
agent went online→offline with an active client, its creator was not yet
notified, the creator is appended to the notified set, and the sends either
stay (thrown or skipped attempt) or gain exactly this creator's alert. -/
theorem step_cases (env : RunEnv) (st : LoopState) (a : Agent) :
    ((step env st a).notifiedCreators = st.notifiedCreators ∧
      (step env st a).sends = st.sends) ∨
    (a.agentCreator ∉ st.notifiedCreators ∧
      (step env st a).notifiedCreators = st.notifiedCreators ++ [a.agentCreator] ∧
      ((step env st a).sends = st.sends ∨
        (step env st a).sends = st.sends ++ [(a.agentCreator, alertMessage a)])) := by
  unfold step
  by_cases h1 : notifyOwed a.status (computeStatus env a)
  · by_cases h2 : clientActive env && !(decide (a.agentCreator ∈ st.notifiedCreators))
    · have hmem : a.agentCreator ∉ st.notifiedCreators := by
        rcases Bool.and_eq_true _ _ |>.mp h2 with ⟨_, hx⟩
        simpa using hx
      cases hnc : notifyCreatorAgentDown env.net a with
      | error e => left; simp [h1, h2, hnc]
      | ok b =>
        cases b with
        | false => right; exact ⟨hmem, by simp [h1, h2, hnc], Or.inl (by simp [h1, h2, hnc])⟩
        | true => right; exact ⟨hmem, by simp [h1, h2, hnc], Or.inr (by simp [h1, h2, hnc])⟩
    · left; simp [h1, h2]
  · left; simp [h1]

/-- A property preserved by one loop iteration is preserved by the whole
fold. -/
theorem foldl_step_inv (env : RunEnv) (P : LoopState → Prop)
    (hstep : ∀ st a, P st → P (step env st a)) :
    ∀ (agents : List Agent) (st : LoopState), P st → P (agents.foldl (step env) st) := by
  intro agents
  induction agents with
  | nil => intro st h; simpa using h
  | cons a as ih => intro st h; exact ih _ (hstep st a h)

end AgentDirectory

namespace AgentDirectory

/-- Concrete oracle for the C1 witness: every lookup succeeds and reports
the address unreachable. -/
def oracleC1 : NetOracle :=
  { canMessage := fun _ => Except.ok (some false),
    fetchInboxIdByIdentifier := fun _ => Except.ok none,
    createDm := fun _ => Except.ok "",
    sendText := fun _ _ => Except.ok (),
    sync := fun _ => Except.ok (),
    getConversationById := fun _ _ => Except.ok none,
    messages := fun _ _ => Except.ok [],
    clientInboxId := "pinger" }

/-- Concrete environment for the C1 witness: no wallet key configured. -/
def envC1 : RunEnv :=
  { cronSecret := none, authHeader := none, walletKey := none,
    clientCreateOk := false, now := "2026-01-01T00:00:00.000Z",
    writeOk := true, net := oracleC1 }

/-- Concrete agent for the C1 witness: already offline before the run. -/
def agentC1 : Agent :=
  { agentName := "a", agentAddress := "0xa", agentCreator := "0xc",
    status := Status.offline, lastChecked := "t0" }

/-- C1: the reconciler owes a notification exactly on the online→offline
transition — `notifyOwed` is `true` iff the previous status is `online`
and the new status is `offline` — and on any iteration whose transition is
not online→offline (including offline→offline, unknown→anything and
online→unknown) the loop sends nothing and notifies no creator. -/
theorem notifyOwed_iff_online_to_offline (env : RunEnv) (st : LoopState) (a : Agent)
    (p n : Status)
    (h : notifyOwed a.status (computeStatus env a) = false) :
    (notifyOwed p n = true ↔ (p = Status.online ∧ n = Status.offline)) ∧
    (step env st a).notifiedCreators = st.notifiedCreators ∧
    (step env st a).sends = st.sends := by
  refine ⟨by cases p <;> cases n <;> simp [notifyOwed], ?_, ?_⟩ <;>
    simp [step, h]

/-- Witness for C1 at a concrete run state: an agent already at `offline`
whose re-check yields `offline` again produces no notification. -/
theorem notifyOwed_iff_online_to_offline_witness :
    (notifyOwed Status.offline Status.offline = true ↔
      (Status.offline = Status.online ∧ Status.offline = Status.offline)) ∧
    (step envC1 ⟨[], [], []⟩ agentC1).notifiedCreators =
      (⟨[], [], []⟩ : LoopState).notifiedCreators ∧
    (step envC1 ⟨[], [], []⟩ agentC1).sends = (⟨[], [], []⟩ : LoopState).sends :=
  notifyOwed_iff_online_to_offline envC1 ⟨[], [], []⟩ agentC1 Status.offline
    Status.offline (by decide)

/-- C2: within one run no creator address receives more than one alert,
even when several agents sharing a creator go online→offline in the same
pass: the `notifiedCreators` set gates repeat sends. -/
theorem at_most_one_send_per_creator (env : RunEnv) (agents : List Agent) (c : String) :
    ((GET env agents).sends.filter (fun p => decide (p.1 = c))).length ≤ 1 := by
  by_cases ha : authorized env
  · have key :
        ∀ st : LoopState,
          ((st.sends.filter (fun p => decide (p.1 = c))).length ≤ 1 ∧
            (c ∉ st.notifiedCreators →
              (st.sends.filter (fun p => decide (p.1 = c))).length = 0)) →
          ((agents.foldl (step env) st).sends.filter (fun p => decide (p.1 = c))).length ≤ 1 ∧
            (c ∉ (agents.foldl (step env) st).notifiedCreators →
              ((agents.foldl (step env) st).sends.filter
                (fun p => decide (p.1 = c))).length = 0) := by
      intro st hst
      refine foldl_step_inv env
        (fun st => (st.sends.filter (fun p => decide (p.1 = c))).length ≤ 1 ∧
          (c ∉ st.notifiedCreators →
            (st.sends.filter (fun p => decide (p.1 = c))).length = 0))
        ?_ agents st hst
      intro st a h
      rcases step_cases env st a with ⟨hn, hs⟩ | ⟨hmem, hn, hs | hs⟩
      · rw [hn, hs]; exact h
      · rw [hn, hs]
        refine ⟨h.1, fun hm => h.2 ?_⟩
        intro hc
        exact hm (List.mem_append.mpr (Or.inl hc))
      · rw [hn, hs]
        by_cases hc : a.agentCreator = c
        · subst hc
          have h0 : (st.sends.filter (fun p => decide (p.1 = a.agentCreator))).length = 0 :=
            h.2 hmem
          constructor
          · simp [List.filter_append, h0]
          · intro hm
            exact absurd (List.mem_append.mpr (Or.inr (List.mem_singleton.mpr rfl))) hm
        · constructor
          · simpa [List.filter_append, hc] using h.1
          · intro hm
            have hm2 : c ∉ st.notifiedCreators := fun hx =>
              hm (List.mem_append.mpr (Or.inl hx))
            simpa [List.filter_append, hc] using h.2 hm2
    have := key ⟨[], [], []⟩ (by simp)
    simpa [GET, ha] using this.1
  · simp [GET, ha]

end AgentDirectory

namespace AgentDirectory

/-- Concrete oracle for the C3 witness: the agent is reachable, its inbox
resolves, the channel opens, the probe sends, and every poll observes a
reply authored by the agent. -/
def oracleC3 : NetOracle :=
  { canMessage := fun _ => Except.ok (some true),
    fetchInboxIdByIdentifier := fun _ => Except.ok (some "ib"),
    createDm := fun _ => Except.ok "cv",
    sendText := fun _ _ => Except.ok (),
    sync := fun _ => Except.ok (),
    getConversationById := fun _ _ => Except.ok (some ()),
    messages := fun _ _ => Except.ok [{ senderInboxId := "agent-inbox" }],
    clientInboxId := "pinger" }

/-- C3: the full handshake is three-way.  When the reachability lookup,
inbox resolution, channel open and probe send all succeed, the outcome is
`online` exactly when `waitForResponse` observes, at one of the twelve
polls inside the 60-second window, an inbound message authored by someone
other than the prober, and `unknown` exactly otherwise; a successful
lookup reporting the address unreachable, or an inbox id resolving to
null, ends the handshake with `offline`. -/
theorem pingAgent_three_way (o : NetOracle) (addr inbox convId : String)
    (h1 : o.canMessage addr = Except.ok (some true))
    (h2 : o.fetchInboxIdByIdentifier addr = Except.ok (some inbox))
    (h3 : o.createDm inbox = Except.ok convId)
    (h4 : o.sendText convId PING_MESSAGE = Except.ok ()) :
    (pingAgent o addr = Status.online ↔ waitForResponse o convId PING_TIMEOUT_MS = true) ∧
    (pingAgent o addr = Status.unknown ↔ waitForResponse o convId PING_TIMEOUT_MS = false) ∧
    (waitForResponse o convId PING_TIMEOUT_MS = true ↔
      ∃ k, k < 12 ∧ checkMessages o convId (POLL_INTERVAL_MS * k) = true) ∧
    (∀ (o2 : NetOracle) (a2 : String) (cm : Option Bool),
      o2.canMessage a2 = Except.ok cm → cm ≠ some true →
      pingAgent o2 a2 = Status.offline) ∧
    (∀ (o2 : NetOracle) (a2 : String),
      o2.canMessage a2 = Except.ok (some true) →
      o2.fetchInboxIdByIdentifier a2 = Except.ok none →
      pingAgent o2 a2 = Status.offline) := by
  have hping : pingAgent o addr =
      (if waitForResponse o convId PING_TIMEOUT_MS then Status.online else Status.unknown) := by
    simp [pingAgent, pingAgentBody, h1, h2, h3, h4]
  refine ⟨?_, ?_, ?_, ?_, ?_⟩
  · cases hw : waitForResponse o convId PING_TIMEOUT_MS <;> simp [hping, hw]
  · cases hw : waitForResponse o convId PING_TIMEOUT_MS <;> simp [hping, hw]
  · simp [waitForResponse, pollTimes, PING_TIMEOUT_MS, POLL_INTERVAL_MS,
      List.any_map, List.any_eq_true, List.mem_range, Function.comp]
  · intro o2 a2 cm hcm hne
    simp [pingAgent, pingAgentBody, hcm, hne]
  · intro o2 a2 hcm hib
    simp [pingAgent, pingAgentBody, hcm, hib]

/-- Witness for C3 at a concrete responsive agent. -/
theorem pingAgent_three_way_witness :
    (pingAgent oracleC3 "0xa" = Status.online ↔
      waitForResponse oracleC3 "cv" PING_TIMEOUT_MS = true) ∧
    (pingAgent oracleC3 "0xa" = Status.unknown ↔
      waitForResponse oracleC3 "cv" PING_TIMEOUT_MS = false) ∧
    (waitForResponse oracleC3 "cv" PING_TIMEOUT_MS = true ↔
      ∃ k, k < 12 ∧ checkMessages oracleC3 "cv" (POLL_INTERVAL_MS * k) = true) ∧
    (∀ (o2 : NetOracle) (a2 : String) (cm : Option Bool),
      o2.canMessage a2 = Except.ok cm → cm ≠ some true →
      pingAgent o2 a2 = Status.offline) ∧
    (∀ (o2 : NetOracle) (a2 : String),
      o2.canMessage a2 = Except.ok (some true) →
      o2.fetchInboxIdByIdentifier a2 = Except.ok none →
      pingAgent o2 a2 = Status.offline) :=
  pingAgent_three_way oracleC3 "0xa" "ib" "cv" rfl rfl rfl rfl

/-- Concrete oracle for the C4 witness: the reachability call throws. -/
def oracleC4 : NetOracle :=
  { canMessage := fun _ => Except.error (),
    fetchInboxIdByIdentifier := fun _ => Except.ok none,
    createDm := fun _ => Except.ok "",
    sendText := fun _ _ => Except.ok (),
    sync := fun _ => Except.ok (),
    getConversationById := fun _ _ => Except.ok none,
    messages := fun _ _ => Except.ok [],
    clientInboxId := "pinger" }

/-- Concrete environment for the C4 witness: active client over the
throwing oracle. -/
def envC4 : RunEnv :=
  { cronSecret := none, authHeader := none, walletKey := some "0xkey",
    clientCreateOk := true, now := "2026-01-01T00:00:00.000Z",
    writeOk := true, net := oracleC4 }

/-- Concrete agent for the C4 witness. -/
def agentC4 : Agent :=
  { agentName := "b", agentAddress := "0xb", agentCreator := "0xc",
    status := Status.unknown, lastChecked := "t0" }

/-- C4: an exception escaping the handshake body is caught and mapped to
`unknown`, never propagated, and the batch is unaffected: an authorized
run still produces one updated record per registry record, each computed
from its own agent alone. -/
theorem ping_error_isolated (o : NetOracle) (addr : String) (env : RunEnv)
    (agents : List Agent)
    (he : pingAgentBody o addr = Except.error ())
    (ha : authorized env = true) :
    pingAgent o addr = Status.unknown ∧
    (GET env agents).response.agents = agents.map (updateAgent env) := by
  constructor
  · simp [pingAgent, he]
  · simp [GET, ha, foldl_updatedAgents]

/-- Witness for C4: a reachability call that throws yields `unknown`, and
the run over one agent still updates that agent. -/
theorem ping_error_isolated_witness :
    pingAgent oracleC4 "0xb" = Status.unknown ∧
    (GET envC4 [agentC4]).response.agents = [agentC4].map (updateAgent envC4) :=
  ping_error_isolated oracleC4 "0xb" envC4 [agentC4] rfl rfl

end AgentDirectory

namespace AgentDirectory

/-- Concrete oracle for C5: the very first poll (at time 0) already
observes a reply authored by the agent, so the wait resolves `true`
immediately. -/
def oracleC5 : NetOracle :=
  { canMessage := fun _ => Except.ok (some true),
    fetchInboxIdByIdentifier := fun _ => Except.ok (some "ib"),
    createDm := fun _ => Except.ok "cv",
    sendText := fun _ _ => Except.ok (),
    sync := fun _ => Except.ok (),
    getConversationById := fun _ _ => Except.ok (some ()),
    messages := fun _ _ => Except.ok [{ senderInboxId := "agent-inbox" }],
    clientInboxId := "pinger" }

/-- C5 failing input, evaluated: a qualifying message at the first poll
resolves the wait with `true` at time 0 and `clearTimeout` does cancel the
resolve-false timer, yet the recurring poll interval and the cleanup
timeout are both still pending right after resolution — `clearInterval`
runs only in the cleanup timeout at the 60-second ceiling, so a pending
recurring poll survives the resolution, contradicting the claim that no
timer or recurring poll remains pending once the wait resolves. -/
theorem interval_still_pending_after_early_resolve :
    waitForResponse oracleC5 "cv" PING_TIMEOUT_MS = true ∧
    waitResolveTime oracleC5 "cv" PING_TIMEOUT_MS = 0 ∧
    timeoutTimerPendingAfter oracleC5 "cv" PING_TIMEOUT_MS 0 = false ∧
    intervalPendingAfter PING_TIMEOUT_MS 0 = true ∧
    cleanupTimerPendingAfter PING_TIMEOUT_MS 0 = true := by decide

/-- Concrete oracle for C6: the agent is unreachable (so its full ping
ends `offline`) and its creator is unreachable too (so the notification is
silently skipped and no alert is sent). -/
def oracleC6 : NetOracle :=
  { canMessage := fun _ => Except.ok (some false),
    fetchInboxIdByIdentifier := fun _ => Except.ok none,
    createDm := fun _ => Except.ok "",
    sendText := fun _ _ => Except.ok (),
    sync := fun _ => Except.ok (),
    getConversationById := fun _ _ => Except.ok none,
    messages := fun _ _ => Except.ok [],
    clientInboxId := "pinger" }

/-- Concrete environment for C6: authorized run with an active client over
`oracleC6`. -/
def envC6 : RunEnv :=
  { cronSecret := none, authHeader := none, walletKey := some "0xkey",
    clientCreateOk := true, now := "2026-01-01T00:00:00.000Z",
    writeOk := true, net := oracleC6 }

/-- Concrete agent for C6: previously online, creator unreachable. -/
def agentC6 : Agent :=
  { agentName := "a", agentAddress := "0xa", agentCreator := "0xc",
    status := Status.online, lastChecked := "t0" }

/-- C6 counterexample: in this run no alert message is sent at all, yet
`summary.notified` is 1 — the unreachable creator was silently skipped
inside `notifyCreatorAgentDown`, which returned without throwing, so the
loop still added it to `notifiedCreators`; the claim that a skipped
creator is not counted as notified is false. -/
theorem notified_counts_skipped_creator :
    (GET envC6 [agentC6]).sends = [] ∧
    (GET envC6 [agentC6]).response.summary.notified = 1 := by decide

/-- C6 amended: `summary.notified` equals the number of distinct creators
whose notification attempt completed without throwing (silent skips
included), and every creator actually sent an alert is among those
counted. -/
theorem notified_counts_nonthrowing_attempts (env : RunEnv) (agents : List Agent)
    (ha : authorized env = true) :
    (GET env agents).response.summary.notified =
      (GET env agents).notifiedCreators.length ∧
    ∀ p ∈ (GET env agents).sends, p.1 ∈ (GET env agents).notifiedCreators := by
  constructor
  · simp [GET, ha, mkSummary]
  · have key := foldl_step_inv env
      (fun st => ∀ p ∈ st.sends, p.1 ∈ st.notifiedCreators)
      (by
        intro st a h
        rcases step_cases env st a with ⟨hn, hs⟩ | ⟨hmem, hn, hs | hs⟩
        · rw [hn, hs]; exact h
        · rw [hn, hs]
          intro p hp
          exact List.mem_append.mpr (Or.inl (h p hp))
        · rw [hn, hs]
          intro p hp
          rcases List.mem_append.mp hp with hp1 | hp2
          · exact List.mem_append.mpr (Or.inl (h p hp1))
          · have : p = (a.agentCreator, alertMessage a) := by simpa using hp2
            subst this
            exact List.mem_append.mpr (Or.inr (by simp)))
      agents ⟨[], [], []⟩ (by simp)
    simpa [GET, ha] using key

/-- Witness for the amended C6 at the concrete skipped-creator run. -/
theorem notified_counts_nonthrowing_attempts_witness :
    (GET envC6 [agentC6]).response.summary.notified =
      (GET envC6 [agentC6]).notifiedCreators.length ∧
    ∀ p ∈ (GET envC6 [agentC6]).sends, p.1 ∈ (GET envC6 [agentC6]).notifiedCreators :=
  notified_counts_nonthrowing_attempts envC6 [agentC6] rfl

/-- Concrete oracle for C7: every reachability lookup throws. -/
def oracleC7 : NetOracle :=
  { canMessage := fun _ => Except.error (),
    fetchInboxIdByIdentifier := fun _ => Except.ok none,
    createDm := fun _ => Except.ok "",
    sendText := fun _ _ => Except.ok (),
    sync := fun _ => Except.ok (),
    getConversationById := fun _ _ => Except.ok none,
    messages := fun _ _ => Except.ok [],
    clientInboxId := "pinger" }

/-- Concrete environment for C7: no wallet key, so the run uses the
reachability-only fallback over the throwing oracle. -/
def envC7 : RunEnv :=
  { cronSecret := none, authHeader := none, walletKey := none,
    clientCreateOk := false, now := "2026-01-01T00:00:00.000Z",
    writeOk := true, net := oracleC7 }

/-- Concrete agent for C7. -/
def agentC7 : Agent :=
  { agentName := "d", agentAddress := "0xd", agentCreator := "0xc",
    status := Status.online, lastChecked := "t0" }

/-- C7 counterexample: when the reachability lookup throws inside the full
handshake, the outcome is `unknown`, not `offline` as the claim states —
the catch of `pingAgent` maps the exception to `unknown`. -/
theorem handshake_lookup_failure_yields_unknown :
    pingAgent oracleC7 "0xd" = Status.unknown ∧
    Status.unknown ≠ Status.offline := by decide

/-- C7 amended: a reachability-lookup failure never raises to the caller;
in the fallback reachability-only check it is treated as not reachable
(`checkAgentReachability` returns `false` and the agent's status becomes
`offline`), while in the full handshake the exception is caught and the
outcome is `unknown`. -/
theorem reachability_failure_handling (o : NetOracle) (addr : String)
    (env : RunEnv) (a : Agent)
    (h1 : o.canMessage addr = Except.error ())
    (h2 : clientActive env = false)
    (h3 : env.net.canMessage a.agentAddress = Except.error ()) :
    checkAgentReachability o addr = false ∧
    pingAgent o addr = Status.unknown ∧
    computeStatus env a = Status.offline := by
  refine ⟨?_, ?_, ?_⟩
  · simp [checkAgentReachability, h1]
  · simp [pingAgent, pingAgentBody, h1]
  · simp [computeStatus, h2, checkAgentReachability, h3]

/-- Witness for the amended C7 at the concrete throwing oracle. -/
theorem reachability_failure_handling_witness :
    checkAgentReachability oracleC7 "0xd" = false ∧
    pingAgent oracleC7 "0xd" = Status.unknown ∧
    computeStatus envC7 agentC7 = Status.offline :=
  reachability_failure_handling oracleC7 "0xd" envC7 agentC7 rfl rfl rfl

end AgentDirectory

namespace AgentDirectory

/-- The auth check ignores the `writeOk` component of the environment. -/
theorem authorized_writeOk (env : RunEnv) (b : Bool) :
    authorized { env with writeOk := b } = authorized env := rfl

/-- The per-agent loop ignores the `writeOk` component of the
environment. -/
theorem step_writeOk (env : RunEnv) (b : Bool) :
    step { env with writeOk := b } = step env := rfl

/-- Concrete oracle for the C8 witness. -/
def oracleC8 : NetOracle :=
  { canMessage := fun _ => Except.ok (some false),
    fetchInboxIdByIdentifier := fun _ => Except.ok none,
    createDm := fun _ => Except.ok "",
    sendText := fun _ _ => Except.ok (),
    sync := fun _ => Except.ok (),
    getConversationById := fun _ _ => Except.ok none,
    messages := fun _ _ => Except.ok [],
    clientInboxId := "pinger" }

/-- Concrete environment for the C8 witness. -/
def envC8 : RunEnv :=
  { cronSecret := none, authHeader := none, walletKey := none,
    clientCreateOk := false, now := "2026-01-02T00:00:00.000Z",
    writeOk := true, net := oracleC8 }

/-- Concrete agent for the C8 witness. -/
def agentC8 : Agent :=
  { agentName := "e", agentAddress := "0xe", agentENS := some "e.eth",
    agentCreator := "0xc", agentWebsite := some "https://e.example",
    agentCategories := ["defi", "trading"], agentX := some "@e",
    agentFC := some "e", profileImage := some "/e.png",
    status := Status.unknown, lastChecked := "t0" }

/-- C8: the registry written back and returned is exactly the loaded
registry mapped record-by-record in order — no record added or removed —
and for each record every field other than `status` and `lastChecked` is
unchanged, while `lastChecked` is rewritten to the run timestamp on every
record regardless of whether its status changed. -/
theorem registry_frame (env : RunEnv) (agents : List Agent)
    (ha : authorized env = true) :
    (GET env agents).response.agents = agents.map (updateAgent env) ∧
    (GET env agents).writePayload = some (agents.map (updateAgent env)) ∧
    (GET env agents).response.agents.length = agents.length ∧
    ∀ a ∈ agents,
      (updateAgent env a).agentName = a.agentName ∧
      (updateAgent env a).agentAddress = a.agentAddress ∧
      (updateAgent env a).agentENS = a.agentENS ∧
      (updateAgent env a).agentCreator = a.agentCreator ∧
      (updateAgent env a).agentWebsite = a.agentWebsite ∧
      (updateAgent env a).agentCategories = a.agentCategories ∧
      (updateAgent env a).agentX = a.agentX ∧
      (updateAgent env a).agentFC = a.agentFC ∧
      (updateAgent env a).profileImage = a.profileImage ∧
      (updateAgent env a).status = computeStatus env a ∧
      (updateAgent env a).lastChecked = env.now := by
  refine ⟨?_, ?_, ?_, ?_⟩
  · simp [GET, ha, foldl_updatedAgents]
  · simp [GET, ha, foldl_updatedAgents]
  · simp [GET, ha, foldl_updatedAgents]
  · exact fun a _ => ⟨rfl, rfl, rfl, rfl, rfl, rfl, rfl, rfl, rfl, rfl, rfl⟩

/-- Witness for C8 at a concrete one-record registry. -/
theorem registry_frame_witness :
    (GET envC8 [agentC8]).response.agents = [agentC8].map (updateAgent envC8) ∧
    (GET envC8 [agentC8]).writePayload = some ([agentC8].map (updateAgent envC8)) ∧
    (GET envC8 [agentC8]).response.agents.length = [agentC8].length ∧
    ∀ a ∈ [agentC8],
      (updateAgent envC8 a).agentName = a.agentName ∧
      (updateAgent envC8 a).agentAddress = a.agentAddress ∧
      (updateAgent envC8 a).agentENS = a.agentENS ∧
      (updateAgent envC8 a).agentCreator = a.agentCreator ∧
      (updateAgent envC8 a).agentWebsite = a.agentWebsite ∧
      (updateAgent envC8 a).agentCategories = a.agentCategories ∧
      (updateAgent envC8 a).agentX = a.agentX ∧
      (updateAgent envC8 a).agentFC = a.agentFC ∧
      (updateAgent envC8 a).profileImage = a.profileImage ∧
      (updateAgent envC8 a).status = computeStatus envC8 a ∧
      (updateAgent envC8 a).lastChecked = envC8.now :=
  registry_frame envC8 [agentC8] rfl

/-- Concrete environment for the C9 witness. -/
def envC9 : RunEnv :=
  { cronSecret := some "s3cret", authHeader := some "Bearer s3cret",
    walletKey := none, clientCreateOk := false,
    now := "2026-01-03T00:00:00.000Z", writeOk := true, net := oracleC8 }

/-- Concrete agent for the C9 witness. -/
def agentC9 : Agent :=
  { agentName := "f", agentAddress := "0xf", agentCreator := "0xc",
    status := Status.unknown, lastChecked := "t0" }

/-- C9: a failing registry write is recovered — the authorized run replies
200 with `success: true`, and the whole response (statuses and summary
included) is identical to what it would be had the write succeeded; the
write outcome is recorded only in the persistence flag, never in the
response. -/
theorem persistence_failure_recovered (env : RunEnv) (agents : List Agent)
    (ha : authorized env = true) :
    (GET { env with writeOk := false } agents).response =
      (GET { env with writeOk := true } agents).response ∧
    (GET env agents).persisted = env.writeOk ∧
    (GET env agents).response.status = 200 ∧
    (GET env agents).response.success = true ∧
    (GET env agents).writePayload = some ((GET env agents).response.agents) := by
  refine ⟨?_, ?_, ?_, ?_, ?_⟩ <;>
    simp [GET, authorized_writeOk, step_writeOk, ha]

/-- Witness for C9 at a concrete authorized run. -/
theorem persistence_failure_recovered_witness :
    (GET { envC9 with writeOk := false } [agentC9]).response =
      (GET { envC9 with writeOk := true } [agentC9]).response ∧
    (GET envC9 [agentC9]).persisted = envC9.writeOk ∧
    (GET envC9 [agentC9]).response.status = 200 ∧
    (GET envC9 [agentC9]).response.success = true ∧
    (GET envC9 [agentC9]).writePayload = some ((GET envC9 [agentC9]).response.agents) :=
  persistence_failure_recovered envC9 [agentC9] (by decide)

/-- Concrete environment for the C10 witness: no wallet key configured,
and the network reports every address unreachable. -/
def envC10 : RunEnv :=
  { cronSecret := none, authHeader := none, walletKey := none,
    clientCreateOk := true, now := "2026-01-04T00:00:00.000Z",
    writeOk := true, net := oracleC8 }

/-- Concrete agent for the C10 witness: previously online, and the
fallback check will find it unreachable, hence `offline`. -/
def agentC10 : Agent :=
  { agentName := "g", agentAddress := "0xg", agentCreator := "0xc",
    status := Status.online, lastChecked := "t0" }

/-- C10: with no XMTP client initialized, no notification is attempted for
any agent — even one going online→offline via the fallback check — so the
notified-creators set stays empty and `summary.notified` is 0. -/
theorem no_client_no_notifications (env : RunEnv) (agents : List Agent)
    (h : clientActive env = false) :
    (GET env agents).sends = [] ∧
    (GET env agents).notifiedCreators = [] ∧
    (GET env agents).response.summary.notified = 0 := by
  by_cases ha : authorized env
  · have key := foldl_step_inv env
      (fun st => st.notifiedCreators = [] ∧ st.sends = [])
      (by
        intro st a hst
        have hfix : (step env st a).notifiedCreators = st.notifiedCreators ∧
            (step env st a).sends = st.sends := by
          simp [step, h]
        rw [hfix.1, hfix.2]; exact hst)
      agents ⟨[], [], []⟩ ⟨rfl, rfl⟩
    refine ⟨?_, ?_, ?_⟩ <;> simp [GET, ha, mkSummary, key.1, key.2]
  · simp [GET, ha]

/-- Witness for C10: one previously-online agent found unreachable by the
fallback check still triggers no notification. -/
theorem no_client_no_notifications_witness :
    (GET envC10 [agentC10]).sends = [] ∧
    (GET envC10 [agentC10]).notifiedCreators = [] ∧
    (GET envC10 [agentC10]).response.summary.notified = 0 :=
  no_client_no_notifications envC10 [agentC10] rfl

end AgentDirectory
